import Mathlib

/-!
Shallow embedding of the core of src/epicwin.py (EpicWin CLI) and proofs
about its specified behaviour.

The embedding models:
  - JSON values (the bodies the Python code manipulates as dicts/lists),
    together with Python truthiness, dict.get, str(), and the substring test;
  - extract_token_and_id (epicwin.py lines 269-284);
  - with_session_retry (epicwin.py lines 346-357), with the external login
    flow abstracted as a function of the account id (it prompts the user),
    and the wrapped operation abstracted as a function of the invocation
    index so the number of underlying calls is observable;
  - request_post (epicwin.py lines 253-266) with the HTTP transport
    abstracted as a function returning either an exception or a response;
  - make_device_profile (epicwin.py lines 37-145) and build_headers
    (lines 148-196), with the global random generator modelled as an
    explicit stream of draws and the hashing / clock primitives abstracted
    into an environment record.
-/

namespace EpicWin

/-- Json values as manipulated by the Python code: dicts are association
lists, numbers are modelled as integers (no float appears in any body the
claims touch). -/
inductive Json where
  | null
  | bool (b : Bool)
  | num (n : Int)
  | str (s : String)
  | arr (xs : List Json)
  | obj (fields : List (String × Json))

/-- Python truthiness of a JSON value: None, False, 0, "", [] and the empty
dict are falsy, everything else is truthy. -/
def Json.truthy : Json → Bool
  | .null => false
  | .bool b => b
  | .num n => n != 0
  | .str s => s != ""
  | .arr [] => false
  | .arr (_ :: _) => true
  | .obj [] => false
  | .obj (_ :: _) => true

/-- Python isinstance(x, dict). -/
def Json.isObj : Json → Bool
  | .obj _ => true
  | _ => false

/-- Python dict.get(key, default); on non-dicts never called by the source
(always guarded by isinstance), the default is returned for totality. -/
def Json.getD (j : Json) (k : String) (d : Json) : Json :=
  match j with
  | .obj fs =>
      match fs.lookup k with
      | some v => v
      | none => d
  | _ => d

/-- Python dict.get(key) with its implicit None default. -/
def Json.get (j : Json) (k : String) : Json :=
  j.getD k Json.null

/-- Python `a or b`: a if a is truthy, else b. -/
def pyOr (a b : Json) : Json :=
  if a.truthy then a else b

mutual

/-- Python repr() of a JSON value (used by str() on containers). -/
def pyRepr : Json → String
  | .null => "None"
  | .bool b => if b then "True" else "False"
  | .num n => toString n
  | .str s => "\x27" ++ s ++ "\x27"
  | .arr xs => "[" ++ String.intercalate ", " (pyReprList xs) ++ "]"
  | .obj fs => "\x7b" ++ String.intercalate ", " (pyReprFields fs) ++ "\x7d"

/-- Helper of pyRepr for array elements. -/
def pyReprList : List Json → List String
  | [] => []
  | x :: xs => pyRepr x :: pyReprList xs

/-- Helper of pyRepr for dict entries. -/
def pyReprFields : List (String × Json) → List String
  | [] => []
  | (k, v) :: fs => ("\x27" ++ k ++ "\x27: " ++ pyRepr v) :: pyReprFields fs

end

/-- Python str() of a JSON value: identity on strings, repr-like rendering
otherwise. -/
def pyStr : Json → String
  | .str s => s
  | j => pyRepr j

/-- ASCII lowercase of a string, modelling Python str.lower() on the
ASCII-only strings the source uses. -/
def strLower (s : String) : String :=
  String.mk (s.toList.map Char.toLower)

/-- Decides whether the pattern occurs at the head of the character list. -/
def leadsWith : List Char → List Char → Bool
  | [], _ => true
  | _ :: _, [] => false
  | p :: ps, c :: cs => p == c && leadsWith ps cs

/-- Decides whether pat occurs as a contiguous sublist of s. -/
def containsSub (s pat : List Char) : Bool :=
  match s with
  | [] => leadsWith pat []
  | _ :: rest => leadsWith pat s || containsSub rest pat

/-- Python `pat in s` substring test. -/
def strContains (s pat : String) : Bool :=
  containsSub s.toList pat.toList

/-- Models Python s.replace("_", "") (removal of every underscore). -/
def stripUnderscores (s : String) : String :=
  String.mk (s.toList.filter (fun c => c != '_'))

/-- Python s[:n] slicing on strings. -/
def strTake (s : String) (n : Nat) : String :=
  String.mk (s.toList.take n)

/-! ### Token extraction, epicwin.py lines 269-284 -/

/-- Embedding of extract_token_and_id: returns the (token, account_id)
pair, with Json.null standing for Python None. -/
def extract_token_and_id (login_json : Json) : Json × Json :=
  if login_json.isObj then
    let token := pyOr (login_json.get "auth_token") (login_json.get "token")
    let data := login_json.get "data"
    let token :=
      if !token.truthy && data.isObj then
        pyOr (data.get "auth_token") (data.get "token")
      else token
    if !token.truthy then
      match login_json.get "value" with
      | .arr (v0 :: _) =>
          let first := if v0.isObj then v0 else Json.null
          if first.truthy then
            (pyOr (pyOr (first.get "session_token") (first.get "auth_token")) (first.get "token"),
             first.get "account_id")
          else (token, Json.null)
      | _ => (token, Json.null)
    else (token, Json.null)
  else (Json.null, Json.null)

/-! ### Session retry wrapper, epicwin.py lines 346-357 -/

/-- Embedding of the session-expiry test performed on the first response:
str(data.get("statusdesc", "")).lower() with underscores removed must
contain "sessionexpired" or "session expired" (non-dicts give ""). -/
def sessionExpiredSignal (data : Json) : Bool :=
  let desc := if data.isObj then strLower (pyStr (data.getD "statusdesc" (Json.str ""))) else ""
  let stripped := stripUnderscores desc
  strContains stripped "sessionexpired" || strContains stripped "session expired"

/-- Embedding of with_session_retry.  The wrapped operation fn takes the
invocation index (0 for the initial call, 1 for the retry) together with
the (account_id, token) it is called with, so that the number of
underlying invocations is observable; do_login_flow abstracts the external
interactive login flow as a function from the current account id to the
(token, account_id-from-login) pair it yields (Json.null standing for
None).  The result is ((status, body), token, account_id) as in the
source, extended with the number of times fn was invoked. -/
def with_session_retry (fn : Nat → Json → Json → Int × Json)
    (do_login_flow : Json → Json × Json) (account_id token : Json) :
    (Int × Json) × Json × Json × Nat :=
  let r0 := fn 0 account_id token
  if sessionExpiredSignal r0.2 then
    let lr := do_login_flow account_id
    let new_token := lr.1
    let acct_from_login := lr.2
    if !new_token.truthy then
      (r0, token, account_id, 1)
    else
      let account_id := if acct_from_login.truthy then acct_from_login else account_id
      let r1 := fn 1 account_id new_token
      (r1, new_token, account_id, 2)
  else
    (r0, token, account_id, 1)

/-! ### Transport, epicwin.py lines 253-266 -/

/-- Outcome of the underlying requests.post call: either a raised
transport exception (requests.exceptions.RequestException) with its
message, or an HTTP response with a status, a JSON body when r.json()
succeeds, and the raw body text. -/
inductive TransportOutcome where
  | exn (msg : String)
  | response (status : Int) (jsonBody : Option Json) (text : String)

/-- Fixed upstream base URL (epicwin.py line 28). -/
def BASE : String := "https://api.epicwincasino.ph"

/-- Embedding of request_post, with the transport abstracted as a function
of (url, payload, headers).  Totality of this function is the embedding of
the guarantee that no exception propagates to the caller. -/
def request_post (transport : String → Json → Option (List (String × Json)) → TransportOutcome)
    (path : String) (payload : Json) (headers : Option (List (String × Json))) : Int × Json :=
  let url := BASE ++ path
  match transport url payload headers with
  | .exn e => (0, Json.obj [("error", Json.str "request_exception"), ("message", Json.str e)])
  | .response status jsonBody text =>
      match jsonBody with
      | some d => (status, d)
      | none => (status, Json.obj [("raw_text", Json.str text)])

end EpicWin

namespace EpicWin

/-! ### Random source and environment for the device profile generator -/

/-- The global random generator of the random module, modelled as an
abstract stream of natural draws with a position; each primitive draw
consumes one stream element reduced modulo its range. -/
structure Rng where
  stream : Nat → Nat
  pos : Nat

/-- Draw a natural number below n (the next stream element modulo n). -/
def Rng.next (g : Rng) (n : Nat) : Nat × Rng :=
  (g.stream g.pos % n, ⟨g.stream, g.pos + 1⟩)

/-- Python random.randint(a, b): uniform on the inclusive range. -/
def Rng.randint (g : Rng) (a b : Int) : Int × Rng :=
  let kg := g.next (b - a + 1).toNat
  (a + (kg.1 : Int), kg.2)

/-- Python random.choice on a list (the default is never selected on the
nonempty pools the source uses, since the drawn index is in range). -/
def Rng.choice {α : Type} (g : Rng) (l : List α) (d : α) : α × Rng :=
  let ig := g.next l.length
  (l.getD ig.1 d, ig.2)

/-- Models the 15 random.choice("0123456789") draws of the IMEI
generation, in evaluation order. -/
def digitDraws : Nat → Rng → List Char × Rng
  | 0, g => ([], g)
  | n + 1, g =>
      let cg := g.choice "0123456789".toList '0'
      let rest := digitDraws n cg.2
      (cg.1 :: rest.1, rest.2)

/-- Abstraction of the non-random ambient primitives used by
make_device_profile and build_headers: os.urandom(16), the md5/sha1 hex
digests, str(time.time()), time.time() and datetime.utcnow() as whole
seconds, the isoformat rendering of a microsecond-truncated datetime, and
email.utils.formatdate. -/
structure Env where
  urandom16 : String
  md5hex : String → String
  sha1hex : String → String
  timeStr : String
  epochTime : Int
  nowUtc : Int
  isoNoMicro : Int → String
  formatdate : Int → String

/-! ### Device pools, epicwin.py lines 44-61 -/

/-- One entry of a mobile device pool: vendor, model and screen size. -/
structure DevEntry where
  vendor : String
  model : String
  screenW : Int
  screenH : Int

/-- Fallback entry for Rng.choice / List.getD (never selected in range). -/
def devEntryD : DevEntry := ⟨"", "", 0, 0⟩

/-- ANDROID_POOL, epicwin.py lines 44-52. -/
def ANDROID_POOL : List DevEntry := [
  ⟨"Samsung", "SM-S911B", 1440, 3088⟩,
  ⟨"Samsung", "SM-A546E", 1080, 2340⟩,
  ⟨"Xiaomi", "2201117TG", 1080, 2400⟩,
  ⟨"OPPO", "CPH2457", 1080, 2400⟩,
  ⟨"Realme", "RMX3630", 1080, 2412⟩,
  ⟨"OnePlus", "OnePlus 11", 1440, 3216⟩,
  ⟨"Vivo", "V2144", 1080, 2400⟩]

/-- IOS_POOL, epicwin.py lines 53-57. -/
def IOS_POOL : List DevEntry := [
  ⟨"Apple", "iPhone12,1", 1170, 2532⟩,
  ⟨"Apple", "iPhone14,2", 1179, 2556⟩,
  ⟨"Apple", "iPhone15,2", 1290, 2796⟩]

/-- WINDOWS_RES, epicwin.py line 58. -/
def WINDOWS_RES : List (Int × Int) := [(1366, 768), (1600, 900), (1920, 1080), (2560, 1440)]

/-- Windows model pool, epicwin.py line 106. -/
def WINDOWS_MODELS : List String := ["PC", "Laptop"]

/-- macOS model pool, epicwin.py line 106. -/
def MAC_MODELS : List String := ["MacBook Pro", "MacBook Air"]

/-- PH_LOCALES, epicwin.py line 60. -/
def PH_LOCALES : List String := ["en-PH,en;q=0.9", "tl-PH,tl;q=0.9", "fil-PH,fil;q=0.9"]

/-- The family list of epicwin.py lines 66 and 69. -/
def FAMILIES : List String := ["Android", "iOS", "Windows", "macOS"]

/-- Family selection, epicwin.py lines 65-70: a weighted random draw
(0.62 / 0.30 / 0.06 / 0.02, modelled as a draw below 100 against the
cumulative weights) when no variant is given, otherwise the deterministic
pick families[profile_variant % len(families)]. -/
def pickFamily (pv? : Option Int) (g : Rng) : String × Rng :=
  match pv? with
  | none =>
      let kg := g.next 100
      ((if kg.1 < 62 then "Android" else if kg.1 < 92 then "iOS"
        else if kg.1 < 98 then "Windows" else "macOS"), kg.2)
  | some pv => (FAMILIES.getD (pv % (FAMILIES.length : Int)).toNat "Android", g)

/-- Models Python s.replace("_", ".") on the iOS version strings. -/
def usToDots (s : String) : String :=
  String.mk (s.toList.map (fun c => if c == '_' then '.' else c))

/-- Models Python s.split(".")[0]: the longest dot-free leading segment. -/
def takeUntilDot (s : String) : String :=
  String.mk (s.toList.takeWhile (fun c => c != '.'))

/-- The per-family locals computed by the branches of epicwin.py lines
75-115 (mobile_flag is computed by the source but not stored in the
profile dict). -/
structure BranchData where
  vendor : String
  model : String
  width : Int
  height : Int
  os_version : String
  android_id : String
  imei : String
  platform : String
  ua : String
  mobile_flag : String
  device_memory : Int
  hw_threads : Int

/-- Android branch, epicwin.py lines 75-87, draws in source order: device
pick, OS version, 15 IMEI digits, Chrome version, memory, threads. -/
def androidBranch (pv? : Option Int) (env : Env) (device_uuid : String) (g : Rng) :
    BranchData × Rng :=
  let pickg :=
    match pv? with
    | none => g.choice ANDROID_POOL devEntryD
    | some pv => (ANDROID_POOL.getD (pv % (ANDROID_POOL.length : Int)).toNat devEntryD, g)
  let pick := pickg.1
  let osg := pickg.2.choice ["11", "12", "13", "14"] ""
  let os_version := osg.1
  let android_id := strTake (env.md5hex (device_uuid ++ pick.model)) 16
  let imeig := digitDraws 15 osg.2
  let imei := String.mk imeig.1
  let chromeg := imeig.2.randint 100 140
  let ua := "Mozilla/5.0 (Linux; Android " ++ os_version ++ "; " ++ pick.model ++
    ") AppleWebKit/537.36 (KHTML, like Gecko) Chrome/" ++ toString chromeg.1 ++
    ".0.0.0 Mobile Safari/537.36"
  let memg := chromeg.2.choice [(4 : Int), 6, 8, 12] 0
  let hwg := memg.2.choice [(4 : Int), 6, 8] 0
  (⟨pick.vendor, pick.model, pick.screenW, pick.screenH, os_version, android_id, imei,
    "Android", ua, "?1", memg.1, hwg.1⟩, hwg.2)

/-- iOS branch, epicwin.py lines 89-102: device pick and OS version draw;
android_id and imei are left empty. -/
def iosBranch (pv? : Option Int) (g : Rng) : BranchData × Rng :=
  let pickg :=
    match pv? with
    | none => g.choice IOS_POOL devEntryD
    | some pv => (IOS_POOL.getD (pv % (IOS_POOL.length : Int)).toNat devEntryD, g)
  let pick := pickg.1
  let osg := pickg.2.choice ["15_6", "16_7", "17_5"] ""
  let os_version_raw := osg.1
  let os_version := usToDots os_version_raw
  let ua := "Mozilla/5.0 (iPhone; CPU iPhone OS " ++ os_version_raw ++
    " like Mac OS X) AppleWebKit/605.1.15 (KHTML, like Gecko) Version/" ++
    takeUntilDot os_version ++ ".0 Mobile/15E148 Safari/604.1"
  let memg := osg.2.choice [(4 : Int), 6] 0
  let hwg := memg.2.choice [(4 : Int), 6] 0
  (⟨pick.vendor, pick.model, pick.screenW, pick.screenH, os_version, "", "",
    "iOS", ua, "?1", memg.1, hwg.1⟩, hwg.2)

/-- Windows / macOS branch, epicwin.py lines 104-115: model, resolution
and OS version draws (random even when a variant is given), desktop
user agent; android_id and imei are left empty and platform is the
family itself. -/
def desktopBranch (family : String) (g : Rng) : BranchData × Rng :=
  let vendor := if family == "Windows" then "GenericPC" else "Apple"
  let modelg := if family == "Windows" then g.choice WINDOWS_MODELS ""
                else g.choice MAC_MODELS ""
  let resg := modelg.2.choice WINDOWS_RES ((0 : Int), (0 : Int))
  let osg := if family == "Windows" then resg.2.choice ["10", "11"] ""
             else resg.2.choice ["12", "13"] ""
  let chromeg := osg.2.randint 100 140
  let ua := "Mozilla/5.0 (Windows NT " ++ osg.1 ++
    "; Win64; x64) AppleWebKit/537.36 (KHTML, like Gecko) Chrome/" ++ toString chromeg.1 ++
    ".0.0.0 Safari/537.36"
  let memg := chromeg.2.choice [(8 : Int), 12, 16] 0
  let hwg := memg.2.choice [(4 : Int), 8, 12] 0
  (⟨vendor, modelg.1, resg.1.1, resg.1.2, osg.1, "", "",
    family, ua, "?0", memg.1, hwg.1⟩, hwg.2)

/-- Dispatch on the selected family, epicwin.py lines 75, 89 and 104. -/
def branchFor (family : String) (pv? : Option Int) (env : Env) (device_uuid : String)
    (g : Rng) : BranchData × Rng :=
  if family == "Android" then androidBranch pv? env device_uuid g
  else if family == "iOS" then iosBranch pv? g
  else desktopBranch family g

/-- The profile dict literal of epicwin.py lines 123-144, with the field
values supplied by the caller. -/
def profileJson (device_uuid build_id : String) (bd : BranchData) (clock_skew_sec : Int)
    (client_time manila_local accept_language locale family : String) : Json :=
  Json.obj [
    ("device_id", Json.str device_uuid),
    ("android_id", Json.str bd.android_id),
    ("imei", Json.str bd.imei),
    ("vendor", Json.str bd.vendor),
    ("model", Json.str bd.model),
    ("platform", Json.str bd.platform),
    ("os_version", Json.str bd.os_version),
    ("screen", Json.obj [("width", Json.num bd.width), ("height", Json.num bd.height)]),
    ("screen_res", Json.str (toString bd.width ++ "x" ++ toString bd.height)),
    ("build_id", Json.str build_id),
    ("deviceMemoryGB", Json.num bd.device_memory),
    ("hardwareConcurrency", Json.num bd.hw_threads),
    ("accept_language", Json.str accept_language),
    ("locale", Json.str locale),
    ("timezone", Json.str "Asia/Manila"),
    ("clock_skew_sec", Json.num clock_skew_sec),
    ("x_client_time", Json.str client_time),
    ("x_local_time", Json.str manila_local),
    ("user_agent", Json.str bd.ua),
    ("profile_variant", Json.str (strLower family))]

/-- Embedding of make_device_profile (epicwin.py lines 37-145).  The
account_id argument is bound but, as in the source, never used; the
returned pair carries the profile dict and the advanced random state. -/
def make_device_profile (account_id : String) (profile_variant : Option Int)
    (env : Env) (g : Rng) : Json × Rng :=
  let famg := pickFamily profile_variant g
  let family := famg.1
  let device_uuid := env.md5hex env.urandom16
  let build_id := strTake (env.sha1hex (device_uuid ++ env.timeStr)) 8
  let bdg := branchFor family profile_variant env device_uuid famg.2
  let bd := bdg.1
  let skewg := bdg.2.randint (-120) 120
  let clock_skew_sec := skewg.1
  let client_time := env.isoNoMicro (env.nowUtc + clock_skew_sec) ++ "Z"
  let manila_local := env.isoNoMicro (env.nowUtc + clock_skew_sec + 8 * 3600)
  let alg := if family != "Windows" then skewg.2.choice PH_LOCALES ""
             else ("en-US,en;q=0.9", skewg.2)
  let locg := alg.2.choice ["en-PH", "tl-PH"] ""
  (profileJson device_uuid build_id bd clock_skew_sec client_time manila_local
    alg.1 locg.1 family, locg.2)

/-! ### Header builder, epicwin.py lines 31-34 and 148-196 -/

/-- IS_TEST_MODE, epicwin.py line 32. -/
def IS_TEST_MODE : Bool := true

/-- TEST_CLIENT_NAME, epicwin.py line 33. -/
def TEST_CLIENT_NAME : String := "EpicWinCLI/1.1"

/-- TEST_NOTE, epicwin.py line 34. -/
def TEST_NOTE : String := "Authorized load testing / QA. Traffic is labeled and non-deceptive."

/-- Integer value of a nonempty decimal digit sequence. -/
def decDigitsVal (cs : List Char) : Nat :=
  cs.foldl (fun acc c => acc * 10 + (c.toNat - 48)) 0

/-- Models Python float() applied to a string, on the integer-like shapes
relevant here: optional sign, a nonempty integer part and an optional
fractional part (the value is truncated to its integer part, which is the
only precision the embedding keeps); anything else fails as float() does. -/
def parsePyFloat (s : String) : Option Int :=
  let cs := s.toList
  let signed : Int × List Char :=
    match cs with
    | '-' :: r => (-1, r)
    | '+' :: r => (1, r)
    | r => (1, r)
  let intPart := signed.2.takeWhile Char.isDigit
  let rest := signed.2.drop intPart.length
  let fracOk :=
    match rest with
    | [] => true
    | '.' :: fr => fr.all Char.isDigit
    | _ => false
  if intPart.isEmpty || !fracOk then none
  else some (signed.1 * (decDigitsVal intPart : Int))

/-- Python float() on a JSON value: numbers and booleans convert, numeric
strings parse, everything else raises (surfaced as Except.error). -/
def pyFloat : Json → Except String Int
  | .num n => .ok n
  | .bool b => .ok (if b then 1 else 0)
  | .str s =>
      match parsePyFloat s with
      | some n => .ok n
      | none => .error ("could not convert string to float: " ++ s)
  | .null => .error "float() argument must be a string or a real number, not NoneType"
  | .arr _ => .error "float() argument must be a string or a real number, not list"
  | .obj _ => .error "float() argument must be a string or a real number, not dict"

/-- Python value.lower(): defined on strings, raises AttributeError on
every other value (surfaced as Except.error). -/
def pyLower : Json → Except String String
  | .str s => .ok (strLower s)
  | _ => .error "AttributeError: object has no attribute lower"

mutual

/-- Compact JSON rendering modelling json.dumps with default separators
(string escaping is not modelled; no claim inspects this header). -/
def jsonDumps : Json → String
  | .null => "null"
  | .bool b => if b then "true" else "false"
  | .num n => toString n
  | .str s => "\"" ++ s ++ "\""
  | .arr xs => "[" ++ String.intercalate ", " (jsonDumpsList xs) ++ "]"
  | .obj fs => "\x7b" ++ String.intercalate ", " (jsonDumpsFields fs) ++ "\x7d"

/-- Helper of jsonDumps for array elements. -/
def jsonDumpsList : List Json → List String
  | [] => []
  | x :: xs => jsonDumps x :: jsonDumpsList xs

/-- Helper of jsonDumps for object entries. -/
def jsonDumpsFields : List (String × Json) → List String
  | [] => []
  | (k, v) :: fs => ("\"" ++ k ++ "\": " ++ jsonDumps v) :: jsonDumpsFields fs

end

/-- Embedding of build_headers (epicwin.py lines 148-196).  The profile is
an arbitrary JSON dict as in the source (annotated Dict[str, Any]); the
two operations that can raise on ill-typed field values, float() on
clock_skew_sec and .lower() on platform, are surfaced through Except, in
source evaluation order (the float at line 150, the sec-ch-ua random draw
at line 166, the .lower() at line 167).  Header values keep their JSON
type as Python stores the objects themselves in the dict. -/
def build_headers (env : Env) (device_profile : Json) (g : Rng) :
    Except String (List (String × Json)) × Rng :=
  match pyFloat (device_profile.getD "clock_skew_sec" (Json.num 0)) with
  | .error e => (.error e, g)
  | .ok skew =>
    let date_header := env.formatdate (env.epochTime + skew)
    let chromg := g.randint 118 140
    match pyLower (device_profile.getD "platform" (Json.str "")) with
    | .error e => (.error e, chromg.2)
    | .ok plat =>
      (.ok [
        ("User-Agent", device_profile.getD "user_agent" (Json.str "EpicWinCLI/unknown")),
        ("Accept", Json.str "application/json, text/plain, */*"),
        ("Content-Type", Json.str "application/json"),
        ("Origin", Json.str "https://epicwincasino.ph"),
        ("Referer", Json.str "https://epicwincasino.ph/"),
        ("Accept-Encoding", Json.str "gzip, deflate, br, zstd"),
        ("Accept-Language", device_profile.getD "accept_language" (Json.str "en-PH")),
        ("Date", Json.str date_header),
        ("X-Client-Time", device_profile.getD "x_client_time" (Json.str "")),
        ("X-Local-Time", device_profile.getD "x_local_time" (Json.str "")),
        ("X-Clock-Skew-Seconds", Json.str (pyStr (device_profile.getD "clock_skew_sec" (Json.num 0)))),
        ("X-Timezone", device_profile.getD "timezone" (Json.str "Asia/Manila")),
        ("sec-ch-ua", Json.str ("\"Chromium\";v=\"" ++ toString chromg.1 ++ "\", \"Not=A?Brand\";v=\"24\"")),
        ("sec-ch-ua-mobile", Json.str ("?" ++ (if plat == "android" || plat == "ios" then "1" else "0"))),
        ("sec-ch-ua-platform", Json.str ("\"" ++ pyStr (device_profile.getD "platform" (Json.str "Android")) ++ "\"")),
        ("X-Device-Vendor", device_profile.getD "vendor" (Json.str "")),
        ("X-Device-Model", device_profile.getD "model" (Json.str "")),
        ("X-Device-OS", device_profile.getD "platform" (Json.str "")),
        ("X-Device-OS-Version", device_profile.getD "os_version" (Json.str "")),
        ("X-Test-Mode", Json.str (if IS_TEST_MODE then "true" else "false")),
        ("X-Test-Client", Json.str TEST_CLIENT_NAME),
        ("X-Test-Note", Json.str TEST_NOTE),
        ("X-Test-Profile-Id", device_profile.getD "profile_variant" (Json.str "unknown")),
        ("X-Client-Device", Json.str (jsonDumps (Json.obj [
          ("id", device_profile.get "device_id"),
          ("vendor", device_profile.get "vendor"),
          ("model", device_profile.get "model"),
          ("os", device_profile.get "platform"),
          ("os_version", device_profile.get "os_version"),
          ("screen", device_profile.get "screen"),
          ("memory_gb", device_profile.get "deviceMemoryGB"),
          ("hw_threads", device_profile.get "hardwareConcurrency"),
          ("tz", device_profile.get "timezone")])))], chromg.2)

/-- Pool size of the family selected by a variant index, with the desktop
families measured by their model pools. -/
def familyPoolSize (pv : Int) : Nat :=
  if pv % 4 = 0 then ANDROID_POOL.length
  else if pv % 4 = 1 then IOS_POOL.length
  else if pv % 4 = 2 then WINDOWS_MODELS.length
  else MAC_MODELS.length

/-- Trivial environment used by concrete witnesses and counterexamples. -/
def env0 : Env :=
  ⟨"", fun _ => "", fun _ => "", "", 0, 0, fun _ => "", fun _ => ""⟩

/-- Concrete random stream, constantly zero, for witnesses. -/
def rng0 : Rng := ⟨fun _ => 0, 0⟩

/-- Concrete random stream, constantly one, for witnesses. -/
def rng1 : Rng := ⟨fun _ => 1, 0⟩

/-- Concrete random state whose next draw below 23 coincides with that of
rng0, at a different stream and position. -/
def rng23 : Rng := ⟨fun _ => 23, 5⟩

/-- The branch data computed inside make_device_profile for the selected
family (proof-layer abbreviation of the bd local of the embedding). -/
def profBD (pv? : Option Int) (env : Env) (g : Rng) : BranchData :=
  (branchFor (pickFamily pv? g).1 pv? env (env.md5hex env.urandom16) (pickFamily pv? g).2).1

/-- The random state reaching the clock-skew draw inside
make_device_profile (proof-layer abbreviation). -/
def profG (pv? : Option Int) (env : Env) (g : Rng) : Rng :=
  (branchFor (pickFamily pv? g).1 pv? env (env.md5hex env.urandom16) (pickFamily pv? g).2).2


/-- Mock operation for the retry witnesses: first call reports an expired
session, second call succeeds. -/
def retryFn : Nat → Json → Json → Int × Json := fun n _ _ =>
  if n == 0 then (200, Json.obj [("statusdesc", Json.str "Session_Expired")])
  else (200, Json.obj [("statusdesc", Json.str "ok"), ("result", Json.str "done")])

/-- Mock login flow that yields a fresh token and no account id. -/
def retryLogin : Json → Json × Json := fun _ => (Json.str "T2", Json.null)

/-- Mock login flow that fails to yield a token. -/
def failLogin : Json → Json × Json := fun _ => (Json.null, Json.null)

/-! ### Claims about the session-retry wrapper -/

/-- C1: for every operation, login flow, token and account id, when the
first response is a dict whose statusdesc (lowercased, underscores
removed) contains a session-expired phrase and the re-login yields a
truthy token, with_session_retry invokes the underlying operation exactly
twice (never a third time, whatever the second response contains) and
returns the second result together with the new token and the account id
from the login (falling back to the original account id); when the first
response does not signal expiry, the operation is invoked exactly once and
the original result is returned with token and account id unchanged. -/
theorem with_session_retry_call_counts (fn : Nat → Json → Json → Int × Json)
    (do_login_flow : Json → Json × Json) (account_id token : Json) :
    (sessionExpiredSignal (fn 0 account_id token).2 = true →
      (do_login_flow account_id).1.truthy = true →
      with_session_retry fn do_login_flow account_id token =
        (fn 1 (if (do_login_flow account_id).2.truthy then (do_login_flow account_id).2
               else account_id)
              (do_login_flow account_id).1,
         (do_login_flow account_id).1,
         (if (do_login_flow account_id).2.truthy then (do_login_flow account_id).2
          else account_id),
         2)) ∧
    (sessionExpiredSignal (fn 0 account_id token).2 = false →
      with_session_retry fn do_login_flow account_id token =
        (fn 0 account_id token, token, account_id, 1)) := by
  constructor
  · intro hexp htok
    simp [with_session_retry, hexp, htok]
  · intro hexp
    simp [with_session_retry, hexp]

/-- Witness for C1 at a concrete mock operation and login flow. -/
theorem with_session_retry_call_counts_witness :
    with_session_retry retryFn retryLogin (Json.str "user1") (Json.str "T1") =
      ((200, Json.obj [("statusdesc", Json.str "ok"), ("result", Json.str "done")]),
       Json.str "T2", Json.str "user1", 2) := by
  have h := (with_session_retry_call_counts retryFn retryLogin
      (Json.str "user1") (Json.str "T1")).1 (by rfl) (by rfl)
  simpa [retryFn, retryLogin, Json.truthy] using h

/-- C2: if the first response signals session expiry but the re-login
yields no truthy token, with_session_retry returns the original failed
(status, body) result with the original token and account id unchanged,
and the underlying operation is invoked exactly once. -/
theorem with_session_retry_login_failure (fn : Nat → Json → Json → Int × Json)
    (do_login_flow : Json → Json × Json) (account_id token : Json)
    (hexp : sessionExpiredSignal (fn 0 account_id token).2 = true)
    (htok : (do_login_flow account_id).1.truthy = false) :
    with_session_retry fn do_login_flow account_id token =
      (fn 0 account_id token, token, account_id, 1) := by
  simp [with_session_retry, hexp, htok]

/-- Witness for C2 at a concrete mock operation and failing login flow. -/
theorem with_session_retry_login_failure_witness :
    with_session_retry retryFn failLogin (Json.str "user1") (Json.str "T1") =
      ((200, Json.obj [("statusdesc", Json.str "Session_Expired")]),
       Json.str "T1", Json.str "user1", 1) := by
  have h := with_session_retry_login_failure retryFn failLogin
      (Json.str "user1") (Json.str "T1") (by rfl) (by rfl)
  simpa [retryFn] using h

/-! ### Claims about the token extractor -/

/-- C3: extract_token_and_id resolves, in order, top-level auth_token or
token, then the same keys inside a nested data dict, then the first
element of a value array (session_token / auth_token / token together
with account_id), returning (None, None) on non-dicts and when no key is
present; the four concrete examples of the specification evaluate as
stated. -/
theorem extract_token_and_id_spec :
    extract_token_and_id (Json.obj [("auth_token", Json.str "T1")]) =
      (Json.str "T1", Json.null) ∧
    extract_token_and_id (Json.obj [("data", Json.obj [("token", Json.str "T2")])]) =
      (Json.str "T2", Json.null) ∧
    extract_token_and_id (Json.obj [("value", Json.arr
        [Json.obj [("session_token", Json.str "T3"), ("account_id", Json.str "A1")]])]) =
      (Json.str "T3", Json.str "A1") ∧
    extract_token_and_id (Json.obj []) = (Json.null, Json.null) ∧
    (∀ j : Json, j.isObj = false → extract_token_and_id j = (Json.null, Json.null)) ∧
    (∀ j : Json, j.isObj = true → (j.get "auth_token").truthy = true →
      extract_token_and_id j = (j.get "auth_token", Json.null)) ∧
    (∀ j : Json, j.isObj = true → (j.get "auth_token").truthy = false →
      (j.get "token").truthy = true →
      extract_token_and_id j = (j.get "token", Json.null)) ∧
    (∀ j : Json, j.isObj = true → (j.get "auth_token").truthy = false →
      (j.get "token").truthy = false → (j.get "data").isObj = true →
      ((j.get "data").get "auth_token").truthy = true →
      extract_token_and_id j = ((j.get "data").get "auth_token", Json.null)) ∧
    (∀ j : Json, j.isObj = true → j.get "auth_token" = Json.null →
      j.get "token" = Json.null → j.get "data" = Json.null → j.get "value" = Json.null →
      extract_token_and_id j = (Json.null, Json.null)) := by
  refine ⟨rfl, rfl, rfl, rfl, ?_, ?_, ?_, ?_, ?_⟩
  · intro j h
    simp [extract_token_and_id, h]
  · intro j hobj hauth
    simp [extract_token_and_id, hobj, pyOr, hauth]
  · intro j hobj hauth htok
    simp [extract_token_and_id, hobj, pyOr, hauth, htok]
  · intro j hobj hauth htok hdata hdauth
    simp [extract_token_and_id, hobj, pyOr, hauth, htok, hdata, hdauth]
  · intro j hobj hauth htok hdata hvalue
    simp [extract_token_and_id, hobj, pyOr, hauth, htok, hdata, hvalue, Json.truthy, Json.isObj]

/-- Witness for C3: the top-level token key wins when auth_token is
present but falsy. -/
theorem extract_token_and_id_spec_witness :
    extract_token_and_id (Json.obj [("auth_token", Json.str ""), ("token", Json.str "T0")]) =
      (Json.str "T0", Json.null) := by
  have h := extract_token_and_id_spec.2.2.2.2.2.2.1
      (Json.obj [("auth_token", Json.str ""), ("token", Json.str "T0")]) (by rfl) (by rfl) (by rfl)
  simpa [Json.get, Json.getD] using h

/-! ### Claims about the transport -/

/-- C4: for every transport, path, payload and headers, a transport-level
exception yields (0, a structured request_exception payload) without
propagating (request_post is total), and a response whose body fails JSON
parsing yields the HTTP status paired with a raw_text wrapper. -/
theorem request_post_spec
    (transport : String → Json → Option (List (String × Json)) → TransportOutcome)
    (path : String) (payload : Json) (headers : Option (List (String × Json))) :
    (∀ msg, transport (BASE ++ path) payload headers = .exn msg →
      request_post transport path payload headers =
        (0, Json.obj [("error", Json.str "request_exception"), ("message", Json.str msg)])) ∧
    (∀ status text, transport (BASE ++ path) payload headers = .response status none text →
      request_post transport path payload headers =
        (status, Json.obj [("raw_text", Json.str text)])) := by
  constructor
  · intro msg h
    simp [request_post, h]
  · intro status text h
    simp [request_post, h]

/-- Witness for C4 at a transport that always raises. -/
theorem request_post_spec_witness :
    request_post (fun _ _ _ => .exn "connection reset") "/member/memberlogin"
        (Json.obj []) none =
      (0, Json.obj [("error", Json.str "request_exception"),
                    ("message", Json.str "connection reset")]) := by
  exact (request_post_spec (fun _ _ _ => .exn "connection reset") "/member/memberlogin"
      (Json.obj []) none).1 "connection reset" rfl

end EpicWin

namespace EpicWin

/-! ### Helper lemmas about the random primitives and pools -/

/-- List.getD at an in-range index is a member of the list. -/
theorem getD_mem {α : Type} {l : List α} {i : Nat} (d : α) (h : i < l.length) :
    l.getD i d ∈ l := by
  induction l generalizing i with
  | nil => simp at h
  | cons x xs ih =>
    cases i with
    | zero => simp
    | succ n =>
      simp only [List.getD_cons_succ]
      exact List.mem_cons_of_mem x (ih (by simpa using h))

/-- Rng.choice on a nonempty list returns a member of the list. -/
theorem Rng.choice_mem {α : Type} (g : Rng) (l : List α) (d : α) (h : l ≠ []) :
    (g.choice l d).1 ∈ l := by
  have hlen : 0 < l.length := List.length_pos.mpr h
  simp only [Rng.choice, Rng.next]
  exact getD_mem d (Nat.mod_lt _ hlen)

/-- Rng.randint stays within its inclusive bounds. -/
theorem Rng.randint_bounds (g : Rng) (a b : Int) (h : a ≤ b) :
    a ≤ (g.randint a b).1 ∧ (g.randint a b).1 ≤ b := by
  simp only [Rng.randint, Rng.next]
  have h0 : 0 < (b - a + 1).toNat := by omega
  have hm : g.stream g.pos % (b - a + 1).toNat < (b - a + 1).toNat := Nat.mod_lt _ h0
  omega

/-- The selected family is always one of the four family strings. -/
theorem pickFamily_cases (pv? : Option Int) (g : Rng) :
    (pickFamily pv? g).1 = "Android" ∨ (pickFamily pv? g).1 = "iOS" ∨
    (pickFamily pv? g).1 = "Windows" ∨ (pickFamily pv? g).1 = "macOS" := by
  cases pv? with
  | none =>
    simp only [pickFamily]
    split_ifs <;> simp
  | some pv =>
    simp only [pickFamily]
    rw [show ((FAMILIES.length : Nat) : Int) = 4 from rfl]
    have h1 : 0 ≤ pv % 4 := Int.emod_nonneg pv (by norm_num)
    have h2 : pv % 4 < 4 := Int.emod_lt_of_pos pv (by norm_num)
    have h3 : (pv % 4).toNat = 0 ∨ (pv % 4).toNat = 1 ∨ (pv % 4).toNat = 2 ∨
        (pv % 4).toNat = 3 := by omega
    rcases h3 with h | h | h | h <;> rw [h] <;> simp [FAMILIES]

/-- The platform recorded by each branch equals the selected family. -/
theorem desktopBranch_platform (family : String) (g : Rng) :
    (desktopBranch family g).1.platform = family := rfl

/-- The Android branch records platform Android. -/
theorem androidBranch_platform (pv? : Option Int) (env : Env) (uuid : String) (g : Rng) :
    (androidBranch pv? env uuid g).1.platform = "Android" := rfl

/-- The iOS branch records platform iOS. -/
theorem iosBranch_platform (pv? : Option Int) (g : Rng) :
    (iosBranch pv? g).1.platform = "iOS" := rfl

/-- Whatever the family, the branch dispatch records it as the platform. -/
theorem branchFor_platform (family : String) (pv? : Option Int) (env : Env)
    (uuid : String) (g : Rng) :
    (branchFor family pv? env uuid g).1.platform = family := by
  simp only [branchFor]
  split_ifs with h1 h2
  · rw [androidBranch_platform]; exact (eq_of_beq h1).symm
  · rw [iosBranch_platform]; exact (eq_of_beq h2).symm
  · exact desktopBranch_platform family g

/-- Screen width and height are positive in every branch. -/
theorem branchFor_screen_pos (family : String) (pv? : Option Int) (env : Env)
    (uuid : String) (g : Rng) :
    0 < (branchFor family pv? env uuid g).1.width ∧
    0 < (branchFor family pv? env uuid g).1.height := by
  have hA : ∀ e ∈ ANDROID_POOL, 0 < e.screenW ∧ 0 < e.screenH := by decide
  have hI : ∀ e ∈ IOS_POOL, 0 < e.screenW ∧ 0 < e.screenH := by decide
  have hW : ∀ p ∈ WINDOWS_RES, 0 < p.1 ∧ 0 < p.2 := by decide
  simp only [branchFor]
  split_ifs with h1 h2
  · cases pv? with
    | none =>
      have hm := Rng.choice_mem g ANDROID_POOL devEntryD (by unfold ANDROID_POOL; exact List.cons_ne_nil _ _)
      exact ⟨(hA _ hm).1, (hA _ hm).2⟩
    | some pv =>
      have hidx : (pv % ((ANDROID_POOL.length : Nat) : Int)).toNat < ANDROID_POOL.length := by
        rw [show ANDROID_POOL.length = 7 from rfl]
        omega
      have hm := getD_mem (l := ANDROID_POOL) devEntryD hidx
      exact ⟨(hA _ hm).1, (hA _ hm).2⟩
  · cases pv? with
    | none =>
      have hm := Rng.choice_mem g IOS_POOL devEntryD (by unfold IOS_POOL; exact List.cons_ne_nil _ _)
      exact ⟨(hI _ hm).1, (hI _ hm).2⟩
    | some pv =>
      have hidx : (pv % ((IOS_POOL.length : Nat) : Int)).toNat < IOS_POOL.length := by
        rw [show IOS_POOL.length = 3 from rfl]
        omega
      have hm := getD_mem (l := IOS_POOL) devEntryD hidx
      exact ⟨(hI _ hm).1, (hI _ hm).2⟩
  · by_cases hw : (family == "Windows") = true
    · simp only [desktopBranch, hw, if_true]
      have hm := Rng.choice_mem (g.choice WINDOWS_MODELS "").2 WINDOWS_RES
          ((0 : Int), (0 : Int)) (by decide)
      exact ⟨(hW _ hm).1, (hW _ hm).2⟩
    · simp only [desktopBranch, hw, if_false]
      have hm := Rng.choice_mem (g.choice MAC_MODELS "").2 WINDOWS_RES
          ((0 : Int), (0 : Int)) (by decide)
      exact ⟨(hW _ hm).1, (hW _ hm).2⟩

/-- Field characterization of the generated profile dict in terms of the
selected branch data and the skew draw. -/
theorem make_fields (a : String) (pv? : Option Int) (env : Env) (g : Rng) :
    (make_device_profile a pv? env g).1.get "platform" = Json.str (profBD pv? env g).platform ∧
    (make_device_profile a pv? env g).1.get "model" = Json.str (profBD pv? env g).model ∧
    (make_device_profile a pv? env g).1.get "android_id" = Json.str (profBD pv? env g).android_id ∧
    (make_device_profile a pv? env g).1.get "imei" = Json.str (profBD pv? env g).imei ∧
    (make_device_profile a pv? env g).1.get "screen" =
      Json.obj [("width", Json.num (profBD pv? env g).width),
                ("height", Json.num (profBD pv? env g).height)] ∧
    (make_device_profile a pv? env g).1.get "clock_skew_sec" =
      Json.num ((profG pv? env g).randint (-120) 120).1 :=
  ⟨rfl, rfl, rfl, rfl, rfl, rfl⟩

/-- Lengths of the IMEI digit draws. -/
theorem digitDraws_length (n : Nat) (g : Rng) : (digitDraws n g).1.length = n := by
  induction n generalizing g with
  | zero => rfl
  | succ n ih => simp [digitDraws, ih]

/-- Every drawn IMEI character is a decimal digit. -/
theorem digitDraws_digits (n : Nat) (g : Rng) : (digitDraws n g).1.all Char.isDigit = true := by
  induction n generalizing g with
  | zero => rfl
  | succ n ih =>
    have hd : ∀ c ∈ "0123456789".toList, Char.isDigit c = true := by decide
    have hm := Rng.choice_mem g "0123456789".toList '0' (by decide)
    simp [digitDraws, List.all_cons, ih]
    exact hd _ hm

end EpicWin

namespace EpicWin

/-! ### Claims about the device profile generator and header builder -/

/-- C5 counterexample: with variant 0 the selected family is Android,
whose pool size is N = 7, yet generating at 0 % 7 = 0 yields an Android
profile while generating at 0 % 7 + 7 = 7 yields a macOS profile: adding
the pool size N to the variant does not preserve the selected family. -/
theorem make_device_profile_modulo_cex :
    ANDROID_POOL.length = 7 ∧
    (make_device_profile "seed" (some (0 % 7)) env0 rng0).1.get "platform" =
      Json.str "Android" ∧
    (make_device_profile "seed" (some (0 % 7 + 7)) env0 rng0).1.get "platform" =
      Json.str "macOS" :=
  ⟨rfl, rfl, rfl⟩

/-- C5 amended: determinism under modulo holds with period 4 * N rather
than N: for every seed, variant selector and random state, the profile
generated at variant_selector + 4 * N (N the size of the selected family's
device pool, the model pools for the desktop families) is identical to the
profile generated at variant_selector, platform family and concrete device
included.  The period N claimed by the specification fails because the
family index variant_selector mod 4 is not preserved by adding N. -/
theorem make_device_profile_modulo_period (seed : String) (pv : Int) (env : Env) (g : Rng) :
    make_device_profile seed (some (pv + 4 * (familyPoolSize pv : Int))) env g =
      make_device_profile seed (some pv) env g := by
  have hc : pv % 4 = 0 ∨ pv % 4 = 1 ∨ pv % 4 = 2 ∨ pv % 4 = 3 := by omega
  rcases hc with hr | hr | hr | hr
  · have hN : (familyPoolSize pv : Int) = 7 := by
      simp [familyPoolSize, hr, ANDROID_POOL]
    rw [hN]
    have h4 : (pv + 4 * 7) % (4 : Int) = pv % 4 := by omega
    have h7 : (pv + 4 * 7) % (7 : Int) = pv % 7 := by omega
    have hfam : pickFamily (some (pv + 4 * 7)) g = pickFamily (some pv) g := by
      simp only [pickFamily, show ((FAMILIES.length : Nat) : Int) = 4 from rfl, h4]
    have hfama : (pickFamily (some pv) g).1 = "Android" := by
      simp only [pickFamily, show ((FAMILIES.length : Nat) : Int) = 4 from rfl, hr]
      rfl
    have hbr : ∀ (u : String) (g2 : Rng),
        branchFor "Android" (some (pv + 4 * 7)) env u g2 =
          branchFor "Android" (some pv) env u g2 := by
      intro u g2
      show androidBranch (some (pv + 4 * 7)) env u g2 = androidBranch (some pv) env u g2
      simp only [androidBranch, show ((ANDROID_POOL.length : Nat) : Int) = 7 from rfl, h7]
    simp only [make_device_profile, hfam, hfama, hbr]
  · have hN : (familyPoolSize pv : Int) = 3 := by
      simp [familyPoolSize, hr, IOS_POOL]
    rw [hN]
    have h4 : (pv + 4 * 3) % (4 : Int) = pv % 4 := by omega
    have h3 : (pv + 4 * 3) % (3 : Int) = pv % 3 := by omega
    have hfam : pickFamily (some (pv + 4 * 3)) g = pickFamily (some pv) g := by
      simp only [pickFamily, show ((FAMILIES.length : Nat) : Int) = 4 from rfl, h4]
    have hfama : (pickFamily (some pv) g).1 = "iOS" := by
      simp only [pickFamily, show ((FAMILIES.length : Nat) : Int) = 4 from rfl, hr]
      rfl
    have hbr : ∀ (u : String) (g2 : Rng),
        branchFor "iOS" (some (pv + 4 * 3)) env u g2 =
          branchFor "iOS" (some pv) env u g2 := by
      intro u g2
      show iosBranch (some (pv + 4 * 3)) g2 = iosBranch (some pv) g2
      simp only [iosBranch, show ((IOS_POOL.length : Nat) : Int) = 3 from rfl, h3]
    simp only [make_device_profile, hfam, hfama, hbr]
  · have hN : (familyPoolSize pv : Int) = 2 := by
      simp [familyPoolSize, hr, WINDOWS_MODELS]
    rw [hN]
    have h4 : (pv + 4 * 2) % (4 : Int) = pv % 4 := by omega
    have hfam : pickFamily (some (pv + 4 * 2)) g = pickFamily (some pv) g := by
      simp only [pickFamily, show ((FAMILIES.length : Nat) : Int) = 4 from rfl, h4]
    have hfama : (pickFamily (some pv) g).1 = "Windows" := by
      simp only [pickFamily, show ((FAMILIES.length : Nat) : Int) = 4 from rfl, hr]
      rfl
    have hbr : ∀ (u : String) (g2 : Rng),
        branchFor "Windows" (some (pv + 4 * 2)) env u g2 =
          branchFor "Windows" (some pv) env u g2 := fun u g2 => rfl
    simp only [make_device_profile, hfam, hfama, hbr]
  · have hN : (familyPoolSize pv : Int) = 2 := by
      simp [familyPoolSize, hr, MAC_MODELS]
    rw [hN]
    have h4 : (pv + 4 * 2) % (4 : Int) = pv % 4 := by omega
    have hfam : pickFamily (some (pv + 4 * 2)) g = pickFamily (some pv) g := by
      simp only [pickFamily, show ((FAMILIES.length : Nat) : Int) = 4 from rfl, h4]
    have hfama : (pickFamily (some pv) g).1 = "macOS" := by
      simp only [pickFamily, show ((FAMILIES.length : Nat) : Int) = 4 from rfl, hr]
      rfl
    have hbr : ∀ (u : String) (g2 : Rng),
        branchFor "macOS" (some (pv + 4 * 2)) env u g2 =
          branchFor "macOS" (some pv) env u g2 := fun u g2 => rfl
    simp only [make_device_profile, hfam, hfama, hbr]

/-- C6: every generated profile has a clock skew within [-120, 120]
seconds, strictly positive screen width and height, and a platform among
exactly Android, iOS, Windows and macOS, for every seed account id,
variant selector, environment and random state. -/
theorem make_device_profile_invariants (a : String) (pv? : Option Int) (env : Env) (g : Rng) :
    (∃ k : Int, (make_device_profile a pv? env g).1.get "clock_skew_sec" = Json.num k ∧
      -120 ≤ k ∧ k ≤ 120) ∧
    (∃ w h : Int, (make_device_profile a pv? env g).1.get "screen" =
        Json.obj [("width", Json.num w), ("height", Json.num h)] ∧ 0 < w ∧ 0 < h) ∧
    ((make_device_profile a pv? env g).1.get "platform" = Json.str "Android" ∨
     (make_device_profile a pv? env g).1.get "platform" = Json.str "iOS" ∨
     (make_device_profile a pv? env g).1.get "platform" = Json.str "Windows" ∨
     (make_device_profile a pv? env g).1.get "platform" = Json.str "macOS") := by
  obtain ⟨hplat, hmodel, hid, himei, hscreen, hskew⟩ := make_fields a pv? env g
  refine ⟨⟨_, hskew, ?_, ?_⟩, ⟨_, _, hscreen, ?_, ?_⟩, ?_⟩
  · exact (Rng.randint_bounds _ _ _ (by norm_num)).1
  · exact (Rng.randint_bounds _ _ _ (by norm_num)).2
  · exact (branchFor_screen_pos _ _ _ _ _).1
  · exact (branchFor_screen_pos _ _ _ _ _).2
  · rw [hplat]
    have hp : (profBD pv? env g).platform = (pickFamily pv? g).1 :=
      branchFor_platform _ _ _ _ _
    rcases pickFamily_cases pv? g with h | h | h | h <;> rw [hp, h] <;> simp

end EpicWin

namespace EpicWin

/-- Android branch hardware ids: android_id is the 16-hex-character
truncation of the hash of device id concatenated with the model, and the
IMEI is a string of 15 decimal digits. -/
theorem androidBranch_hw (pv? : Option Int) (env : Env) (uuid : String) (g : Rng) :
    (androidBranch pv? env uuid g).1.android_id =
      strTake (env.md5hex (uuid ++ (androidBranch pv? env uuid g).1.model)) 16 ∧
    ∃ d : List Char, (androidBranch pv? env uuid g).1.imei = String.mk d ∧
      d.length = 15 ∧ d.all Char.isDigit = true := by
  refine ⟨rfl, ⟨_, rfl, ?_, ?_⟩⟩
  · exact digitDraws_length _ _
  · exact digitDraws_digits _ _

/-- C9 amended: Android profiles populate the hardware id fields — the
android_id equals the first 16 hex characters of the hash of the device
id concatenated with the model, and the imei is a synthetic 15-digit
numeric string — while iOS, Windows and macOS profiles leave both
android_id and imei empty (the specification wrongly includes iOS among
the populating families; see the counterexample). -/
theorem hardware_id_fields (a : String) (pv? : Option Int) (env : Env) (g : Rng) :
    ((make_device_profile a pv? env g).1.get "platform" = Json.str "Android" ∧
      (∃ m : String, (make_device_profile a pv? env g).1.get "model" = Json.str m ∧
        (make_device_profile a pv? env g).1.get "android_id" =
          Json.str (strTake (env.md5hex (env.md5hex env.urandom16 ++ m)) 16)) ∧
      (∃ d : List Char, (make_device_profile a pv? env g).1.get "imei" =
          Json.str (String.mk d) ∧ d.length = 15 ∧ d.all Char.isDigit = true)) ∨
    (((make_device_profile a pv? env g).1.get "platform" = Json.str "iOS" ∨
      (make_device_profile a pv? env g).1.get "platform" = Json.str "Windows" ∨
      (make_device_profile a pv? env g).1.get "platform" = Json.str "macOS") ∧
      (make_device_profile a pv? env g).1.get "android_id" = Json.str "" ∧
      (make_device_profile a pv? env g).1.get "imei" = Json.str "") := by
  obtain ⟨hplat, hmodel, hid, himei, hscreen, hskew⟩ := make_fields a pv? env g
  have hp : (profBD pv? env g).platform = (pickFamily pv? g).1 :=
    branchFor_platform _ _ _ _ _
  rcases pickFamily_cases pv? g with h | h | h | h
  · left
    have hbd : profBD pv? env g =
        (androidBranch pv? env (env.md5hex env.urandom16) (pickFamily pv? g).2).1 := by
      unfold profBD branchFor
      rw [h]
      rfl
    obtain ⟨haid, d, hd, hlen, hdig⟩ :=
      androidBranch_hw pv? env (env.md5hex env.urandom16) (pickFamily pv? g).2
    refine ⟨by rw [hplat, hp, h], ⟨(profBD pv? env g).model, hmodel, ?_⟩, ⟨d, ?_, hlen, hdig⟩⟩
    · rw [hid, hbd, haid]
    · rw [himei, hbd, hd]
  · right
    have hbd : profBD pv? env g = (iosBranch pv? (pickFamily pv? g).2).1 := by
      unfold profBD branchFor
      rw [h]
      rfl
    exact ⟨Or.inl (by rw [hplat, hp, h]), by rw [hid, hbd]; rfl, by rw [himei, hbd]; rfl⟩
  · right
    have hbd : profBD pv? env g = (desktopBranch "Windows" (pickFamily pv? g).2).1 := by
      unfold profBD branchFor
      rw [h]
      rfl
    exact ⟨Or.inr (Or.inl (by rw [hplat, hp, h])), by rw [hid, hbd]; rfl, by rw [himei, hbd]; rfl⟩
  · right
    have hbd : profBD pv? env g = (desktopBranch "macOS" (pickFamily pv? g).2).1 := by
      unfold profBD branchFor
      rw [h]
      rfl
    exact ⟨Or.inr (Or.inr (by rw [hplat, hp, h])), by rw [hid, hbd]; rfl, by rw [himei, hbd]; rfl⟩

/-- C9 counterexample: the iOS profile at variant 1 leaves android_id and
imei empty, contradicting the claim that iOS profiles populate the
hardware-id field. -/
theorem hardware_id_fields_cex :
    (make_device_profile "seed" (some 1) env0 rng0).1.get "platform" = Json.str "iOS" ∧
    (make_device_profile "seed" (some 1) env0 rng0).1.get "android_id" = Json.str "" ∧
    (make_device_profile "seed" (some 1) env0 rng0).1.get "imei" = Json.str "" :=
  ⟨rfl, rfl, rfl⟩

/-- C10: the generated profile (and the advanced random state) is
independent of the seed account id: for any two account ids and identical
random source and environment, make_device_profile returns identical
results, since the source never reads its account_id parameter. -/
theorem make_device_profile_account_independent (a1 a2 : String) (pv? : Option Int)
    (env : Env) (g : Rng) :
    make_device_profile a1 pv? env g = make_device_profile a2 pv? env g := rfl

/-- C7 amended: build_headers is a deterministic function of the profile,
the time environment and the single hidden random draw used for the
sec-ch-ua browser version: whenever two random states agree on that draw
(the next stream value modulo 23), the produced header sets are identical.
It is not a pure function of (profile, current time) alone; see the
counterexample. -/
theorem build_headers_deterministic (env : Env) (p : Json) (g g' : Rng)
    (h : g.stream g.pos % 23 = g'.stream g'.pos % 23) :
    (build_headers env p g).1 = (build_headers env p g').1 := by
  cases hf : pyFloat (p.getD "clock_skew_sec" (Json.num 0)) with
  | error e => simp [build_headers, hf]
  | ok skew =>
    cases hl : pyLower (p.getD "platform" (Json.str "")) with
    | error e => simp [build_headers, hf, hl]
    | ok plat =>
      simp only [build_headers, hf, hl, Rng.randint, Rng.next,
        show ((140 : Int) - 118 + 1).toNat = 23 from rfl, h]

/-- Witness for the amended C7: two distinct random states agreeing on
the draw produce the same header set. -/
theorem build_headers_deterministic_witness :
    rng0.stream rng0.pos % 23 = rng23.stream rng23.pos % 23 ∧
    (build_headers env0 (Json.obj []) rng0).1 = (build_headers env0 (Json.obj []) rng23).1 :=
  ⟨rfl, build_headers_deterministic env0 (Json.obj []) rng0 rng23 rfl⟩

/-- C7 counterexample: two calls with the identical profile and identical
time environment but different hidden random-generator states produce
different sec-ch-ua header values, so build_headers is not a pure
function of (profile, current time). -/
theorem build_headers_not_time_pure_cex :
    (build_headers env0 (Json.obj []) rng0).1.map (fun l => l.lookup "sec-ch-ua") =
      Except.ok (some (Json.str "\"Chromium\";v=\"118\", \"Not=A?Brand\";v=\"24\"")) ∧
    (build_headers env0 (Json.obj []) rng1).1.map (fun l => l.lookup "sec-ch-ua") =
      Except.ok (some (Json.str "\"Chromium\";v=\"119\", \"Not=A?Brand\";v=\"24\"")) :=
  ⟨rfl, rfl⟩

/-- C8 amended: whenever the profile's clock_skew_sec field (defaulting
to 0 when missing) converts under float() and its platform field
(defaulting to "" when missing) is a string — in particular for every
profile with missing fields or with the field types make_device_profile
produces — build_headers succeeds and the header set contains the
disclosure headers X-Test-Mode = "true", X-Test-Client, X-Test-Note and
the profile-variant tag X-Test-Profile-Id.  For ill-typed field content
the call can fail; see the counterexample. -/
theorem build_headers_disclosure (env : Env) (p : Json) (g : Rng) (skew : Int) (plat : String)
    (hskew : pyFloat (p.getD "clock_skew_sec" (Json.num 0)) = .ok skew)
    (hplat : pyLower (p.getD "platform" (Json.str "")) = .ok plat) :
    ∃ hs : List (String × Json), (build_headers env p g).1 = .ok hs ∧
      hs.lookup "X-Test-Mode" = some (Json.str "true") ∧
      hs.lookup "X-Test-Client" = some (Json.str TEST_CLIENT_NAME) ∧
      hs.lookup "X-Test-Note" = some (Json.str TEST_NOTE) ∧
      hs.lookup "X-Test-Profile-Id" = some (p.getD "profile_variant" (Json.str "unknown")) := by
  simp only [build_headers, hskew, hplat]
  refine ⟨_, rfl, ?_, ?_, ?_, ?_⟩ <;> rfl

/-- Witness for the amended C8 at the empty profile dict. -/
theorem build_headers_disclosure_witness :
    ∃ hs : List (String × Json), (build_headers env0 (Json.obj []) rng0).1 = .ok hs ∧
      hs.lookup "X-Test-Mode" = some (Json.str "true") ∧
      hs.lookup "X-Test-Client" = some (Json.str TEST_CLIENT_NAME) ∧
      hs.lookup "X-Test-Note" = some (Json.str TEST_NOTE) ∧
      hs.lookup "X-Test-Profile-Id" = some ((Json.obj []).getD "profile_variant" (Json.str "unknown")) :=
  build_headers_disclosure env0 (Json.obj []) rng0 0 "" rfl rfl

/-- C8 counterexample: a profile whose clock_skew_sec field is a
non-numeric string makes build_headers fail — float() raises in the
source — so the call does not succeed regardless of profile content. -/
theorem build_headers_failure_cex :
    (build_headers env0 (Json.obj [("clock_skew_sec", Json.str "x")]) rng0).1 =
      Except.error "could not convert string to float: x" := rfl

end EpicWin
